import Mathlib

/-!
Shallow embedding of the EAA (Edge Application Agent) HTTPS API handlers of
`pkg/eaa/api_eaa.go`, together with the collaborator operations they call
(identity parsing, service registry, subscription index, notification
delivery, message-bus publication).  The handlers themselves are translated
from the Go source; the collaborators are not under `src/` and are modelled
from the specification (each such definition says so in its doc comment).
External effects — request-body JSON decoding, payload marshaling, bus
publication, per-consumer channel sends — are modelled as explicit
parameters recording whether the effect succeeds.  Go strings are modelled
as lists of characters.
-/

namespace EAA

/-- Go strings are modelled as lists of characters. -/
abbrev GoStr : Type := List Char

/-- net/http status constant 200. -/
def StatusOK : Nat := 200

/-- net/http status constant 201. -/
def StatusCreated : Nat := 201

/-- net/http status constant 204. -/
def StatusNoContent : Nat := 204

/-- net/http status constant 205 (the "no subscribers" outcome recommended by the spec). -/
def StatusResetContent : Nat := 205

/-- net/http status constant 404. -/
def StatusNotFound : Nat := 404

/-- net/http status constant 500. -/
def StatusInternalServerError : Nat := 500

/-- Core error kinds relevant to the embedded operations (spec section 7). -/
inductive EAAError where
  | InvalidIdentity : EAAError
  | NotInitialized : EAAError
deriving DecidableEq

/-- URN — canonical identifier with namespace and id parts (spec section 3). -/
structure URN where
  Namespace : GoStr
  ID : GoStr
deriving DecidableEq

/-- Modelled from the spec: the method `URN.String()` is not under src; per
section 4.1 it renders the canonical `namespace.id` form used as the map key
and as message-bus routing key. -/
def URN.toString (u : URN) : GoStr := u.Namespace ++ '.' :: u.ID

/-- True of every character other than the dot separator. -/
def notDot (c : Char) : Bool := c != '.'

/-- Split a common name at its first dot: the pair of the longest dot-free
prefix and the remaining suffix (which starts with a dot when one exists). -/
def spanNotDot : GoStr → GoStr × GoStr
  | [] => ([], [])
  | c :: cs =>
    if c = '.' then ([], c :: cs)
    else
      let r := spanNotDot cs
      (c :: r.1, r.2)

/-- First dot-delimited segment of a common name (the namespace part). -/
def cnNamespaceSeg (cn : GoStr) : GoStr := (spanNotDot cn).1

/-- What follows the first dot of a common name (empty when there is no dot). -/
def cnAfterDot (cn : GoStr) : GoStr := (spanNotDot cn).2.drop 1

/-- Second dot-delimited segment of a common name (the id part). -/
def cnIdSeg (cn : GoStr) : GoStr := (spanNotDot (cnAfterDot cn)).1

/-- Modelled from the spec: `CommonNameStringToURN` (`ParseIdentity`) is not
under src; per section 4.1 it splits the common name on the first two
dot-delimited segments and fails with `InvalidIdentity` when fewer than two
segments are present, and per section 8 an empty namespace or id segment is
likewise malformed and fails. -/
def CommonNameStringToURN (cn : GoStr) : Except EAAError URN :=
  match (spanNotDot cn).2 with
  | [] => .error .InvalidIdentity
  | _ :: afterDot =>
    let ns := (spanNotDot cn).1
    let id := (spanNotDot afterDot).1
    if ns = [] ∨ id = [] then .error .InvalidIdentity
    else .ok ⟨ns, id⟩

/-- A well-formed `namespace.id` common name: both segments nonempty and dot-free. -/
def ValidCN (ns id : GoStr) : Prop :=
  ns ≠ [] ∧ id ≠ [] ∧ '.' ∉ ns ∧ '.' ∉ id

/-- Build the common name with the given namespace and id segments. -/
def mkCN (ns id : GoStr) : GoStr := ns ++ '.' :: id

/-- A malformed common name in the sense of the claim: it has no dot, or its
namespace segment is empty, or its id segment is empty. -/
def MalformedCN (cn : GoStr) : Prop :=
  '.' ∉ cn ∨ cnNamespaceSeg cn = [] ∨ cnIdSeg cn = []

/-- Modelled from the spec: `NotificationDescriptor` (spec section 3) is not
under src; it identifies a notification class by name and version
(descriptor equality is structural). -/
structure NotificationDescriptor where
  Name : GoStr
  Version : GoStr
deriving DecidableEq

/-- Subscription scope: a whole namespace, or one specific service (spec section 3). -/
inductive Scope where
  | namespaceScope (ns : GoStr) : Scope
  | serviceScope (ns id : GoStr) : Scope
deriving DecidableEq

/-- Whether a scope is namespace-level. -/
def isNamespaceScoped : Scope → Bool
  | Scope.namespaceScope _ => true
  | Scope.serviceScope _ _ => false

/-- Whether a scope is service-level. -/
def isServiceScoped : Scope → Bool
  | Scope.namespaceScope _ => false
  | Scope.serviceScope _ _ => true

/-- One stored subscription entry: owning consumer (by common name), scope,
and descriptor. -/
abbrev SubEntry : Type := GoStr × Scope × NotificationDescriptor

/-- Modelled from the spec: the Subscription Index (spec section 4.3) is not
under src; it is modelled as the list of stored subscription entries, with
set semantics enforced by the insertion operation. -/
abbrev SubscriptionIndex : Type := List SubEntry

/-- Modelled from the spec: the `Service` struct (spec section 3) is not
under src; it carries the URN (a nil-able pointer in Go, hence `Option`)
plus endpoint metadata and descriptive fields.  The Go zero value has every
field empty, which the field defaults reproduce. -/
structure Service where
  URN : Option URN := none
  Description : GoStr := []
  EndpointURI : GoStr := []
  Notifications : List NotificationDescriptor := []
deriving DecidableEq

/-- Registry-change action constants used by the handlers. -/
inductive ServiceAction where
  | serviceActionRegister : ServiceAction
  | serviceActionDeregister : ServiceAction
deriving DecidableEq

/-- Modelled from the spec: `ServiceMsg`, the registry-change event
carrying a service and an action (spec section 3). -/
structure ServiceMsg where
  Svc : Service
  Action : ServiceAction
deriving DecidableEq

/-- A message handed to the message bus: routing key (the first argument of
`message.NewMessage` in the source) and the marshaled `ServiceMsg` payload. -/
structure Message where
  key : GoStr
  payload : ServiceMsg
deriving DecidableEq

/-- Modelled from the spec: the shared appliance context (`eaaCtx`).  The
Service Registry `serviceInfo` is a nil-able map keyed by the service common
name, and `subscriptionInfo` is the nil-able Subscription Index; `none`
models a nil Go map. -/
structure Context where
  serviceInfo : Option (List (GoStr × Service))
  subscriptionInfo : Option SubscriptionIndex
deriving DecidableEq

/-- The status-line state of a Go `http.ResponseWriter`.  Per net/http, only
the first `WriteHeader` call sets the status line; any later call is a
superfluous no-op. -/
structure ResponseWriter where
  status : Option Nat
deriving DecidableEq

/-- `WriteHeader`: sets the status line if none has been sent yet, otherwise
does nothing (net/http behaviour for superfluous calls). -/
def writeHeader (w : ResponseWriter) (code : Nat) : ResponseWriter :=
  match w.status with
  | some _ => w
  | none => { status := some code }

/-- Modelled from the spec: `isServicePresent` (`Exists`, spec section 4.2)
is not under src; it is the optimistic local registry check, keyed by the
raw common name; a nil registry holds no services. -/
def isServicePresent (cn : GoStr) (ctx : Context) : Bool :=
  match ctx.serviceInfo with
  | none => false
  | some infos => infos.any (fun e => decide (e.1 = cn))

/-- Insert a subscription entry with set semantics: a no-op when the entry
is already present. -/
def insertEntry (e : SubEntry) (idx : SubscriptionIndex) : SubscriptionIndex :=
  if e ∈ idx then idx else e :: idx

/-- Merge every descriptor of `ds` for consumer `cn` under scope `sc` into
the index (duplicates are no-ops). -/
def addDescriptors (cn : GoStr) (sc : Scope) (ds : List NotificationDescriptor)
    (idx : SubscriptionIndex) : SubscriptionIndex :=
  ds.foldl (fun acc d => insertEntry (cn, sc, d) acc) idx

/-- Modelled from the spec: `addSubscriptionToNamespace` (spec section 4.3)
is not under src; it merges the descriptors into the consumer's
namespace-level set (duplicate descriptors are idempotent no-ops), returns a
201-equivalent success status, and a 500-equivalent status only on an
internal fault (uninitialized index), never on "already subscribed". -/
def addSubscriptionToNamespace (cn ns : GoStr) (ds : List NotificationDescriptor)
    (ctx : Context) : Nat × Context :=
  match ctx.subscriptionInfo with
  | none => (StatusInternalServerError, ctx)
  | some idx =>
    (StatusCreated,
     { ctx with subscriptionInfo := some (addDescriptors cn (Scope.namespaceScope ns) ds idx) })

/-- Modelled from the spec: `addSubscriptionToService` (spec section 4.3) is
not under src; same as the namespace variant, scoped to one service. -/
def addSubscriptionToService (cn ns id : GoStr) (ds : List NotificationDescriptor)
    (ctx : Context) : Nat × Context :=
  match ctx.subscriptionInfo with
  | none => (StatusInternalServerError, ctx)
  | some idx =>
    (StatusCreated,
     { ctx with subscriptionInfo := some (addDescriptors cn (Scope.serviceScope ns id) ds idx) })

/-- Remove the named descriptors for consumer `cn` under scope `sc`;
removing an absent descriptor is a no-op. -/
def removeDescriptors (cn : GoStr) (sc : Scope) (ds : List NotificationDescriptor)
    (idx : SubscriptionIndex) : SubscriptionIndex :=
  idx.filter (fun e => decide (¬(e.1 = cn ∧ e.2.1 = sc ∧ e.2.2 ∈ ds)))

/-- Modelled from the spec: `removeSubscriptionToNamespace` (spec section
4.3) is not under src; removes the named descriptors from the consumer's
namespace-level set (absent descriptors are no-ops) and returns success. -/
def removeSubscriptionToNamespace (cn ns : GoStr) (ds : List NotificationDescriptor)
    (ctx : Context) : Nat × Context :=
  match ctx.subscriptionInfo with
  | none => (StatusInternalServerError, ctx)
  | some idx =>
    (StatusNoContent,
     { ctx with subscriptionInfo := some (removeDescriptors cn (Scope.namespaceScope ns) ds idx) })

/-- Modelled from the spec: `removeSubscriptionToService` (spec section 4.3)
is not under src; same as the namespace variant, scoped to one service. -/
def removeSubscriptionToService (cn ns id : GoStr) (ds : List NotificationDescriptor)
    (ctx : Context) : Nat × Context :=
  match ctx.subscriptionInfo with
  | none => (StatusInternalServerError, ctx)
  | some idx =>
    (StatusNoContent,
     { ctx with subscriptionInfo := some (removeDescriptors cn (Scope.serviceScope ns id) ds idx) })

/-- All stored subscription entries owned by consumer `cn`. -/
def consumerEntries (cn : GoStr) (idx : SubscriptionIndex) : List SubEntry :=
  idx.filter (fun e => decide (e.1 = cn))

/-- The consumer's namespace-level entries. -/
def consumerNamespaceEntries (cn : GoStr) (idx : SubscriptionIndex) : List SubEntry :=
  idx.filter (fun e => decide (e.1 = cn) && isNamespaceScoped e.2.1)

/-- The consumer's service-level entries. -/
def consumerServiceEntries (cn : GoStr) (idx : SubscriptionIndex) : List SubEntry :=
  idx.filter (fun e => decide (e.1 = cn) && isServiceScoped e.2.1)

/-- Modelled from the spec: `getConsumerSubscriptions` (spec section 4.3) is
not under src; it returns the consumer's subscription entries (both scopes)
and fails only when the index is uninitialized. -/
def getConsumerSubscriptions (cn : GoStr) (ctx : Context) :
    Except EAAError (List SubEntry) :=
  match ctx.subscriptionInfo with
  | none => .error .NotInitialized
  | some idx => .ok (consumerEntries cn idx)

/-- `NotificationFromProducer`: the notification a producer pushes —
descriptor fields plus a payload. -/
structure NotificationFromProducer where
  Name : GoStr
  Version : GoStr
  Payload : GoStr
deriving DecidableEq

/-- The descriptor identified by a producer notification. -/
def NotificationFromProducer.descriptor (n : NotificationFromProducer) : NotificationDescriptor :=
  ⟨n.Name, n.Version⟩

/-- Modelled from the spec: `MatchSubscribers` (spec section 4.3) is not
under src; every consumer holding a structurally equal descriptor either at
namespace level for the producer's namespace or at service level for the
exact producer `(namespace, id)` pair. -/
def MatchSubscribers (producer : URN) (d : NotificationDescriptor)
    (idx : SubscriptionIndex) : List GoStr :=
  (idx.filter (fun e =>
    decide (e.2.2 = d ∧
      (e.2.1 = Scope.namespaceScope producer.Namespace ∨
       e.2.1 = Scope.serviceScope producer.Namespace producer.ID)))).map (fun e => e.1)

/-- Modelled from the spec: `sendNotificationToAllSubscribers` (spec section
4.4) is not under src; it resolves the producer identity, matches consumers,
and attempts a best-effort send to each matched consumer's live channel
(`sendOk` records which sends succeed).  Zero matched consumers yield the
distinct "no subscribers" status (205-equivalent); one or more matched
consumers yield 200 even when every send fails, with per-consumer failures
recorded only in the returned error flag. -/
def sendNotificationToAllSubscribers (cn : GoStr) (notif : NotificationFromProducer)
    (ctx : Context) (sendOk : GoStr → Bool) : Nat × Bool :=
  match CommonNameStringToURN cn with
  | .error _ => (StatusInternalServerError, true)
  | .ok u =>
    match ctx.subscriptionInfo with
    | none => (StatusInternalServerError, true)
    | some idx =>
      match MatchSubscribers u notif.descriptor idx with
      | [] => (StatusResetContent, false)
      | c :: cs => (StatusOK, (c :: cs).any (fun x => !(sendOk x)))

/-- Outcome of a handler that may publish to the message bus: the response
writer, the messages successfully handed to the bus, and the local context
after the handler ran. -/
structure PublishResult where
  w : ResponseWriter
  published : List Message
  ctx : Context
deriving DecidableEq

/-- `DeregisterApplication` (api_eaa.go): parses the client common name into
a URN (500 on failure), preemptively picks 204 or 404 from the local
registry check, builds a `Service` whose only populated field is the URN,
marshals the deregister `ServiceMsg` (500 on failure — `marshalOk`), and
publishes it keyed by `serv.URN.String()` (500 on failure — `publishOk`);
only then writes the preemptive status. -/
def DeregisterApplication (ctx : Context) (commonName : GoStr)
    (marshalOk publishOk : Bool) : PublishResult :=
  let w : ResponseWriter := { status := none }
  match CommonNameStringToURN commonName with
  | .error _ => ⟨writeHeader w StatusInternalServerError, [], ctx⟩
  | .ok urn =>
    let statusCode := if isServicePresent commonName ctx then StatusNoContent else StatusNotFound
    let serv : Service := { URN := some urn }
    let svcMsg : ServiceMsg := ⟨serv, ServiceAction.serviceActionDeregister⟩
    if marshalOk then
      let msg : Message := ⟨URN.toString urn, svcMsg⟩
      if publishOk then ⟨writeHeader w statusCode, [msg], ctx⟩
      else ⟨writeHeader w StatusInternalServerError, [], ctx⟩
    else ⟨writeHeader w StatusInternalServerError, [], ctx⟩

/-- `RegisterApplication` (api_eaa.go): decodes the request body into a
`Service` (500 on failure — `body = none`), parses the common name into a
URN (500 on failure) and overwrites the service URN with it, marshals the
register `ServiceMsg` (500 on failure), publishes it keyed by the raw
common name (500 on failure), and only then writes 200. -/
def RegisterApplication (ctx : Context) (commonName : GoStr)
    (body : Option Service) (marshalOk publishOk : Bool) : PublishResult :=
  let w : ResponseWriter := { status := none }
  match body with
  | none => ⟨writeHeader w StatusInternalServerError, [], ctx⟩
  | some serv0 =>
    match CommonNameStringToURN commonName with
    | .error _ => ⟨writeHeader w StatusInternalServerError, [], ctx⟩
    | .ok urn =>
      let serv : Service := { serv0 with URN := some urn }
      let svcMsg : ServiceMsg := ⟨serv, ServiceAction.serviceActionRegister⟩
      if marshalOk then
        let msg : Message := ⟨commonName, svcMsg⟩
        if publishOk then ⟨writeHeader w StatusOK, [msg], ctx⟩
        else ⟨writeHeader w StatusInternalServerError, [], ctx⟩
      else ⟨writeHeader w StatusInternalServerError, [], ctx⟩

/-- Outcome of a GET handler: the response writer and the encoded body. -/
structure GetResult where
  w : ResponseWriter
  body : List Service
deriving DecidableEq

/-- `GetServices` (api_eaa.go): writes 200 first, then checks the registry
for nil (writing 500, which is superfluous), collects the service list, and
encodes it (writing 500 on encoder failure, likewise superfluous). -/
def GetServices (ctx : Context) (encodeOk : Bool) : GetResult :=
  let w := writeHeader { status := none } StatusOK
  match ctx.serviceInfo with
  | none => ⟨writeHeader w StatusInternalServerError, []⟩
  | some infos =>
    let servList := infos.map (fun e => e.2)
    if encodeOk then ⟨w, servList⟩
    else ⟨writeHeader w StatusInternalServerError, []⟩

/-- `GetSubscriptions` (api_eaa.go): writes 200 first, then fetches the
consumer's subscription list (writing 500 on failure, superfluous) and
encodes it (writing 500 on encoder failure, likewise superfluous). -/
def GetSubscriptions (ctx : Context) (cn : GoStr) (encodeOk : Bool) : ResponseWriter :=
  let w := writeHeader { status := none } StatusOK
  match getConsumerSubscriptions cn ctx with
  | .error _ => writeHeader w StatusInternalServerError
  | .ok _ =>
    if encodeOk then w
    else writeHeader w StatusInternalServerError

/-- `PushNotificationToSubscribers` (api_eaa.go): decodes the notification
body (500 on failure), runs the delivery engine, and writes whatever status
it returned even when the returned error is non-nil. -/
def PushNotificationToSubscribers (ctx : Context) (cn : GoStr)
    (body : Option NotificationFromProducer) (sendOk : GoStr → Bool) : ResponseWriter :=
  let w : ResponseWriter := { status := none }
  match body with
  | none => writeHeader w StatusInternalServerError
  | some notif =>
    let r := sendNotificationToAllSubscribers cn notif ctx sendOk
    writeHeader w r.1

/-- `SubscribeNamespaceNotifications` (api_eaa.go): decodes the descriptor
list (500 on failure, before touching the index), adds a namespace-scoped
subscription, and writes the returned status. -/
def SubscribeNamespaceNotifications (ctx : Context) (cn ns : GoStr)
    (body : Option (List NotificationDescriptor)) : ResponseWriter × Context :=
  let w : ResponseWriter := { status := none }
  match body with
  | none => (writeHeader w StatusInternalServerError, ctx)
  | some sub =>
    let r := addSubscriptionToNamespace cn ns sub ctx
    (writeHeader w r.1, r.2)

/-- `SubscribeServiceNotifications` (api_eaa.go): decodes the descriptor
list (500 on failure, before touching the index), adds a service-scoped
subscription, and writes the returned status. -/
def SubscribeServiceNotifications (ctx : Context) (cn ns id : GoStr)
    (body : Option (List NotificationDescriptor)) : ResponseWriter × Context :=
  let w : ResponseWriter := { status := none }
  match body with
  | none => (writeHeader w StatusInternalServerError, ctx)
  | some sub =>
    let r := addSubscriptionToService cn ns id sub ctx
    (writeHeader w r.1, r.2)

/-- `UnsubscribeNamespaceNotifications` (api_eaa.go): decodes the descriptor
list (500 on failure, before touching the index), removes the
namespace-scoped subscription, and writes the returned status. -/
def UnsubscribeNamespaceNotifications (ctx : Context) (cn ns : GoStr)
    (body : Option (List NotificationDescriptor)) : ResponseWriter × Context :=
  let w : ResponseWriter := { status := none }
  match body with
  | none => (writeHeader w StatusInternalServerError, ctx)
  | some sub =>
    let r := removeSubscriptionToNamespace cn ns sub ctx
    (writeHeader w r.1, r.2)

/-- `UnsubscribeServiceNotifications` (api_eaa.go): decodes the descriptor
list (500 on failure, before touching the index), removes the
service-scoped subscription, and writes the returned status. -/
def UnsubscribeServiceNotifications (ctx : Context) (cn ns id : GoStr)
    (body : Option (List NotificationDescriptor)) : ResponseWriter × Context :=
  let w : ResponseWriter := { status := none }
  match body with
  | none => (writeHeader w StatusInternalServerError, ctx)
  | some sub =>
    let r := removeSubscriptionToService cn ns id sub ctx
    (writeHeader w r.1, r.2)

/-! ## Identity parsing lemmas -/

/-- Splitting a string built as a dot-free prefix, a dot, and a suffix
recovers exactly that prefix and the dot-led suffix. -/
theorem spanNotDot_append_dot (ns id : GoStr) (h : '.' ∉ ns) :
    spanNotDot (ns ++ '.' :: id) = (ns, '.' :: id) := by
  induction ns with
  | nil => simp [spanNotDot]
  | cons c cs ih =>
    simp only [List.mem_cons, not_or] at h
    have hc : ¬ c = '.' := fun e => h.1 e.symm
    simp [spanNotDot, hc, ih h.2]

/-- Splitting a dot-free string yields the whole string and an empty suffix. -/
theorem spanNotDot_no_dot (l : GoStr) (h : '.' ∉ l) : spanNotDot l = (l, []) := by
  induction l with
  | nil => simp [spanNotDot]
  | cons c cs ih =>
    simp only [List.mem_cons, not_or] at h
    have hc : ¬ c = '.' := fun e => h.1 e.symm
    simp [spanNotDot, hc, ih h.2]

/-- Parsing a well-formed `namespace.id` common name yields exactly that URN. -/
theorem commonName_roundtrip (ns id : GoStr) (h : ValidCN ns id) :
    CommonNameStringToURN (mkCN ns id) = .ok ⟨ns, id⟩ := by
  obtain ⟨hns, hid, hnd, hidd⟩ := h
  unfold CommonNameStringToURN mkCN
  rw [spanNotDot_append_dot ns id hnd]
  simp [spanNotDot_no_dot id hidd, hns, hid]

/-- Every malformed common name is rejected with `InvalidIdentity`. -/
theorem malformed_invalid (cn : GoStr) (h : MalformedCN cn) :
    CommonNameStringToURN cn = .error .InvalidIdentity := by
  unfold CommonNameStringToURN
  rcases h with h | h | h
  · rw [spanNotDot_no_dot cn h]
  · cases hs : (spanNotDot cn).2 with
    | nil => simp [hs]
    | cons c rest =>
      unfold cnNamespaceSeg at h
      simp [hs, h]
  · cases hs : (spanNotDot cn).2 with
    | nil => simp [hs]
    | cons c rest =>
      unfold cnIdSeg cnAfterDot at h
      rw [hs] at h
      simp only [List.drop_succ_cons, List.drop_zero] at h
      simp [hs, h]

/-- C4: for every common name of the valid `namespace.id` shape, identity
parsing (`CommonNameStringToURN`) is a total deterministic function into
URN (it is a Lean function, and every input yields either a URN or the
`InvalidIdentity` failure), it is injective on valid common names, and every
malformed input (no dot, empty namespace or id segment) fails with
`InvalidIdentity`. -/
theorem C4_parse_identity_total_injective :
    (∀ cn : GoStr, (∃ u, CommonNameStringToURN cn = .ok u) ∨
        CommonNameStringToURN cn = .error .InvalidIdentity) ∧
    (∀ ns id, ValidCN ns id → CommonNameStringToURN (mkCN ns id) = .ok ⟨ns, id⟩) ∧
    (∀ ns1 id1 ns2 id2, ValidCN ns1 id1 → ValidCN ns2 id2 →
        CommonNameStringToURN (mkCN ns1 id1) = CommonNameStringToURN (mkCN ns2 id2) →
        mkCN ns1 id1 = mkCN ns2 id2) ∧
    (∀ cn, MalformedCN cn → CommonNameStringToURN cn = .error .InvalidIdentity) := by
  refine ⟨?_, commonName_roundtrip, ?_, malformed_invalid⟩
  · intro cn
    unfold CommonNameStringToURN
    cases hs : (spanNotDot cn).2 with
    | nil => right; simp [hs]
    | cons c rest =>
      by_cases h : (spanNotDot cn).1 = [] ∨ (spanNotDot rest).1 = []
      · right; simp [hs, h]
      · left; exact ⟨⟨(spanNotDot cn).1, (spanNotDot rest).1⟩, by simp [hs, h]⟩
  · intro ns1 id1 ns2 id2 h1 h2 he
    rw [commonName_roundtrip ns1 id1 h1, commonName_roundtrip ns2 id2 h2] at he
    simp only [Except.ok.injEq, URN.mk.injEq] at he
    simp [mkCN, he.1, he.2]

/-- Witness for C4 at concrete inputs: `prod.svc1` parses to its URN, two
equal valid common names are identified, and the dot-free input `nodot`
fails with `InvalidIdentity`. -/
theorem C4_parse_identity_witness :
    CommonNameStringToURN (mkCN ("prod".toList) ("svc1".toList)) =
      .ok ⟨"prod".toList, "svc1".toList⟩ ∧
    mkCN ("a".toList) ("b".toList) = mkCN ("a".toList) ("b".toList) ∧
    CommonNameStringToURN ("nodot".toList) = .error .InvalidIdentity :=
  ⟨C4_parse_identity_total_injective.2.1 _ _ (by unfold ValidCN; decide),
   C4_parse_identity_total_injective.2.2.1 ("a".toList) ("b".toList) ("a".toList) ("b".toList)
     (by unfold ValidCN; decide) (by unfold ValidCN; decide) rfl,
   C4_parse_identity_total_injective.2.2.2 _ (by unfold MalformedCN; decide)⟩

/-! ## Subscription index lemmas -/

/-- An inserted entry is a member of the result. -/
theorem mem_insertEntry_self (e : SubEntry) (idx : SubscriptionIndex) :
    e ∈ insertEntry e idx := by
  by_cases h : e ∈ idx <;> simp [insertEntry, h]

/-- Insertion preserves the existing members. -/
theorem mem_insertEntry_of_mem {x e : SubEntry} {idx : SubscriptionIndex} (h : x ∈ idx) :
    x ∈ insertEntry e idx := by
  by_cases he : e ∈ idx <;> simp [insertEntry, he, h]

/-- Inserting a present entry is a no-op (set semantics). -/
theorem insertEntry_of_mem {e : SubEntry} {idx : SubscriptionIndex} (h : e ∈ idx) :
    insertEntry e idx = idx := by
  simp [insertEntry, h]

/-- Unfolding `addDescriptors` on a cons. -/
theorem addDescriptors_cons (cn : GoStr) (sc : Scope) (d : NotificationDescriptor)
    (ds : List NotificationDescriptor) (idx : SubscriptionIndex) :
    addDescriptors cn sc (d :: ds) idx =
      addDescriptors cn sc ds (insertEntry (cn, sc, d) idx) := rfl

/-- Merging descriptors preserves the existing members. -/
theorem mem_addDescriptors_of_mem {x : SubEntry} (cn : GoStr) (sc : Scope)
    (ds : List NotificationDescriptor) {idx : SubscriptionIndex} (h : x ∈ idx) :
    x ∈ addDescriptors cn sc ds idx := by
  induction ds generalizing idx with
  | nil => exact h
  | cons d ds ih => exact ih (mem_insertEntry_of_mem h)

/-- Every merged descriptor ends up in the index. -/
theorem mem_addDescriptors_self (cn : GoStr) (sc : Scope) {d : NotificationDescriptor}
    {ds : List NotificationDescriptor} (idx : SubscriptionIndex) (h : d ∈ ds) :
    (cn, sc, d) ∈ addDescriptors cn sc ds idx := by
  induction ds generalizing idx with
  | nil => cases h
  | cons d0 ds ih =>
    rcases List.mem_cons.mp h with h1 | h2
    · subst h1
      exact mem_addDescriptors_of_mem cn sc ds (mem_insertEntry_self _ _)
    · rw [addDescriptors_cons]
      exact ih _ h2

/-- Merging descriptors that are all already present is a no-op. -/
theorem addDescriptors_eq_of_all_mem (cn : GoStr) (sc : Scope)
    {ds : List NotificationDescriptor} {idx : SubscriptionIndex}
    (h : ∀ d ∈ ds, (cn, sc, d) ∈ idx) :
    addDescriptors cn sc ds idx = idx := by
  induction ds with
  | nil => rfl
  | cons d ds ih =>
    rw [addDescriptors_cons, insertEntry_of_mem (h d (List.mem_cons_self d ds))]
    exact ih fun d' hd' => h d' (List.mem_cons_of_mem _ hd')

/-- Merging the same descriptor batch twice equals merging it once. -/
theorem addDescriptors_idem (cn : GoStr) (sc : Scope)
    (ds : List NotificationDescriptor) (idx : SubscriptionIndex) :
    addDescriptors cn sc ds (addDescriptors cn sc ds idx) = addDescriptors cn sc ds idx :=
  addDescriptors_eq_of_all_mem cn sc fun _ hd => mem_addDescriptors_self cn sc idx hd

/-- C6: adding the same descriptors twice under the same scope (namespace-
or service-level) returns the same status and subscription state as adding
them once, and both calls return the 201 success status whenever the index
is initialized (duplicate adds are no-ops, never an "already subscribed"
error). -/
theorem C6_duplicate_subscribe_idempotent (ctx : Context) (cn ns id : GoStr)
    (ds : List NotificationDescriptor) :
    addSubscriptionToNamespace cn ns ds (addSubscriptionToNamespace cn ns ds ctx).2 =
      addSubscriptionToNamespace cn ns ds ctx ∧
    addSubscriptionToService cn ns id ds (addSubscriptionToService cn ns id ds ctx).2 =
      addSubscriptionToService cn ns id ds ctx ∧
    (ctx.subscriptionInfo ≠ none →
      (addSubscriptionToNamespace cn ns ds ctx).1 = StatusCreated ∧
      (addSubscriptionToNamespace cn ns ds (addSubscriptionToNamespace cn ns ds ctx).2).1 =
        StatusCreated ∧
      (addSubscriptionToService cn ns id ds ctx).1 = StatusCreated ∧
      (addSubscriptionToService cn ns id ds (addSubscriptionToService cn ns id ds ctx).2).1 =
        StatusCreated) := by
  obtain ⟨si, sub⟩ := ctx
  cases sub with
  | none => exact ⟨rfl, rfl, fun h => absurd rfl h⟩
  | some idx =>
    refine ⟨?_, ?_, fun _ => ⟨rfl, ?_, rfl, ?_⟩⟩ <;>
      simp [addSubscriptionToNamespace, addSubscriptionToService, addDescriptors_idem]

/-- Witness for C6 at a concrete input: one descriptor added twice for the
same consumer and namespace on an initialized empty index. -/
theorem C6_duplicate_subscribe_witness :
    addSubscriptionToNamespace ("cons".toList) ("shop".toList)
        [⟨"n".toList, "1".toList⟩]
        (addSubscriptionToNamespace ("cons".toList) ("shop".toList)
          [⟨"n".toList, "1".toList⟩] ⟨none, some []⟩).2 =
      addSubscriptionToNamespace ("cons".toList) ("shop".toList)
        [⟨"n".toList, "1".toList⟩] ⟨none, some []⟩ ∧
    addSubscriptionToService ("cons".toList) ("shop".toList) ("cart".toList)
        [⟨"n".toList, "1".toList⟩]
        (addSubscriptionToService ("cons".toList) ("shop".toList) ("cart".toList)
          [⟨"n".toList, "1".toList⟩] ⟨none, some []⟩).2 =
      addSubscriptionToService ("cons".toList) ("shop".toList) ("cart".toList)
        [⟨"n".toList, "1".toList⟩] ⟨none, some []⟩ ∧
    (addSubscriptionToNamespace ("cons".toList) ("shop".toList)
        [⟨"n".toList, "1".toList⟩] ⟨none, some []⟩).1 = StatusCreated :=
  ⟨(C6_duplicate_subscribe_idempotent ⟨none, some []⟩ ("cons".toList) ("shop".toList)
      ("cart".toList) [⟨"n".toList, "1".toList⟩]).1,
   (C6_duplicate_subscribe_idempotent ⟨none, some []⟩ ("cons".toList) ("shop".toList)
      ("cart".toList) [⟨"n".toList, "1".toList⟩]).2.1,
   ((C6_duplicate_subscribe_idempotent ⟨none, some []⟩ ("cons".toList) ("shop".toList)
      ("cart".toList) [⟨"n".toList, "1".toList⟩]).2.2 (by decide)).1⟩

/-- C5: the subscription list returned for a consumer is exactly the union
of that consumer's namespace-level and service-level entries, and contains
no entry owned by any other consumer. -/
theorem C5_get_subscriptions_union (cn : GoStr) (ctx : Context) (idx : SubscriptionIndex)
    (l : List SubEntry) (hsub : ctx.subscriptionInfo = some idx)
    (hl : getConsumerSubscriptions cn ctx = .ok l) :
    (∀ e : SubEntry,
      e ∈ l ↔ e ∈ consumerNamespaceEntries cn idx ∨ e ∈ consumerServiceEntries cn idx) ∧
    (∀ e ∈ l, e.1 = cn) := by
  unfold getConsumerSubscriptions at hl
  rw [hsub] at hl
  simp only [Except.ok.injEq] at hl
  subst hl
  refine ⟨fun e => ?_, fun e he => ?_⟩
  · simp only [consumerEntries, consumerNamespaceEntries, consumerServiceEntries,
      List.mem_filter, Bool.and_eq_true, decide_eq_true_eq]
    cases h2 : e.2.1 <;> simp [isNamespaceScoped, isServiceScoped, h2]
  · simp only [consumerEntries, List.mem_filter, decide_eq_true_eq] at he
    exact he.2

/-- Witness for C5 at a concrete input: an index holding two entries for
consumer `cons1` (one per scope) and one entry for `cons2`; the returned
list is exactly the two `cons1` entries. -/
theorem C5_get_subscriptions_witness :
    ((("cons1".toList, Scope.namespaceScope ("shop".toList), ⟨"n".toList, "1".toList⟩) :
        SubEntry) ∈
      [(("cons1".toList : GoStr), Scope.namespaceScope ("shop".toList),
          (⟨"n".toList, "1".toList⟩ : NotificationDescriptor)),
        (("cons1".toList : GoStr), Scope.serviceScope ("shop".toList) ("cart".toList),
          (⟨"m".toList, "1".toList⟩ : NotificationDescriptor))] ↔
      (("cons1".toList, Scope.namespaceScope ("shop".toList), ⟨"n".toList, "1".toList⟩) :
          SubEntry) ∈
        consumerNamespaceEntries ("cons1".toList)
          [(("cons1".toList : GoStr), Scope.namespaceScope ("shop".toList),
              (⟨"n".toList, "1".toList⟩ : NotificationDescriptor)),
            (("cons1".toList : GoStr), Scope.serviceScope ("shop".toList) ("cart".toList),
              (⟨"m".toList, "1".toList⟩ : NotificationDescriptor)),
            (("cons2".toList : GoStr), Scope.namespaceScope ("shop".toList),
              (⟨"n".toList, "1".toList⟩ : NotificationDescriptor))] ∨
      (("cons1".toList, Scope.namespaceScope ("shop".toList), ⟨"n".toList, "1".toList⟩) :
          SubEntry) ∈
        consumerServiceEntries ("cons1".toList)
          [(("cons1".toList : GoStr), Scope.namespaceScope ("shop".toList),
              (⟨"n".toList, "1".toList⟩ : NotificationDescriptor)),
            (("cons1".toList : GoStr), Scope.serviceScope ("shop".toList) ("cart".toList),
              (⟨"m".toList, "1".toList⟩ : NotificationDescriptor)),
            (("cons2".toList : GoStr), Scope.namespaceScope ("shop".toList),
              (⟨"n".toList, "1".toList⟩ : NotificationDescriptor))]) ∧
    (("cons1".toList, Scope.namespaceScope ("shop".toList), ⟨"n".toList, "1".toList⟩) :
        SubEntry).1 = ("cons1".toList : GoStr) :=
  ⟨(C5_get_subscriptions_union ("cons1".toList)
      ⟨none, some [(("cons1".toList : GoStr), Scope.namespaceScope ("shop".toList),
          (⟨"n".toList, "1".toList⟩ : NotificationDescriptor)),
        (("cons1".toList : GoStr), Scope.serviceScope ("shop".toList) ("cart".toList),
          (⟨"m".toList, "1".toList⟩ : NotificationDescriptor)),
        (("cons2".toList : GoStr), Scope.namespaceScope ("shop".toList),
          (⟨"n".toList, "1".toList⟩ : NotificationDescriptor))]⟩
      [(("cons1".toList : GoStr), Scope.namespaceScope ("shop".toList),
          (⟨"n".toList, "1".toList⟩ : NotificationDescriptor)),
        (("cons1".toList : GoStr), Scope.serviceScope ("shop".toList) ("cart".toList),
          (⟨"m".toList, "1".toList⟩ : NotificationDescriptor)),
        (("cons2".toList : GoStr), Scope.namespaceScope ("shop".toList),
          (⟨"n".toList, "1".toList⟩ : NotificationDescriptor))]
      [(("cons1".toList : GoStr), Scope.namespaceScope ("shop".toList),
          (⟨"n".toList, "1".toList⟩ : NotificationDescriptor)),
        (("cons1".toList : GoStr), Scope.serviceScope ("shop".toList) ("cart".toList),
          (⟨"m".toList, "1".toList⟩ : NotificationDescriptor))]
      rfl rfl).1 _,
   (C5_get_subscriptions_union ("cons1".toList)
      ⟨none, some [(("cons1".toList : GoStr), Scope.namespaceScope ("shop".toList),
          (⟨"n".toList, "1".toList⟩ : NotificationDescriptor)),
        (("cons1".toList : GoStr), Scope.serviceScope ("shop".toList) ("cart".toList),
          (⟨"m".toList, "1".toList⟩ : NotificationDescriptor)),
        (("cons2".toList : GoStr), Scope.namespaceScope ("shop".toList),
          (⟨"n".toList, "1".toList⟩ : NotificationDescriptor))]⟩
      [(("cons1".toList : GoStr), Scope.namespaceScope ("shop".toList),
          (⟨"n".toList, "1".toList⟩ : NotificationDescriptor)),
        (("cons1".toList : GoStr), Scope.serviceScope ("shop".toList) ("cart".toList),
          (⟨"m".toList, "1".toList⟩ : NotificationDescriptor)),
        (("cons2".toList : GoStr), Scope.namespaceScope ("shop".toList),
          (⟨"n".toList, "1".toList⟩ : NotificationDescriptor))]
      [(("cons1".toList : GoStr), Scope.namespaceScope ("shop".toList),
          (⟨"n".toList, "1".toList⟩ : NotificationDescriptor)),
        (("cons1".toList : GoStr), Scope.serviceScope ("shop".toList) ("cart".toList),
          (⟨"m".toList, "1".toList⟩ : NotificationDescriptor))]
      rfl rfl).2 _ (List.mem_cons_self _ _)⟩

/-! ## Register / deregister handler lemmas -/

/-- `RegisterApplication` never mutates the local context. -/
theorem RegisterApplication_ctx_unchanged (ctx : Context) (cn : GoStr)
    (body : Option Service) (marshalOk publishOk : Bool) :
    (RegisterApplication ctx cn body marshalOk publishOk).ctx = ctx := by
  unfold RegisterApplication
  cases body with
  | none => rfl
  | some s =>
    cases h : CommonNameStringToURN cn with
    | error e => simp [h]
    | ok u => cases marshalOk <;> cases publishOk <;> simp [h]

/-- `DeregisterApplication` never mutates the local context. -/
theorem DeregisterApplication_ctx_unchanged (ctx : Context) (cn : GoStr)
    (marshalOk publishOk : Bool) :
    (DeregisterApplication ctx cn marshalOk publishOk).ctx = ctx := by
  unfold DeregisterApplication
  cases h : CommonNameStringToURN cn with
  | error e => simp [h]
  | ok u => cases marshalOk <;> cases publishOk <;> simp [h]

/-- When register reaches the bus and the publish fails, the handler answers
500 and hands nothing to the bus. -/
theorem RegisterApplication_publish_failed (ctx : Context) (cn : GoStr) (s : Service)
    (u : URN) (h : CommonNameStringToURN cn = .ok u) :
    RegisterApplication ctx cn (some s) true false =
      ⟨{ status := some StatusInternalServerError }, [], ctx⟩ := by
  unfold RegisterApplication
  rw [h]
  rfl

/-- When deregister reaches the bus and the publish fails, the handler
answers 500 and hands nothing to the bus. -/
theorem DeregisterApplication_publish_failed (ctx : Context) (cn : GoStr)
    (u : URN) (h : CommonNameStringToURN cn = .ok u) :
    DeregisterApplication ctx cn true false =
      ⟨{ status := some StatusInternalServerError }, [], ctx⟩ := by
  unfold DeregisterApplication
  rw [h]
  rfl

/-- Register answers 200 only on the publish-success path. -/
theorem RegisterApplication_ok_implies_publish (ctx : Context) (cn : GoStr)
    (body : Option Service) (marshalOk publishOk : Bool) :
    (RegisterApplication ctx cn body marshalOk publishOk).w.status = some StatusOK →
      publishOk = true := by
  unfold RegisterApplication
  cases body with
  | none =>
    intro h
    simp [writeHeader, StatusOK, StatusInternalServerError] at h
  | some s =>
    cases hcn : CommonNameStringToURN cn with
    | error e =>
      intro h
      simp [hcn, writeHeader, StatusOK, StatusInternalServerError] at h
    | ok u =>
      cases marshalOk <;> cases publishOk <;> intro h <;>
        first
        | rfl
        | simp [hcn, writeHeader, StatusOK, StatusInternalServerError] at h

/-- Deregister answers a non-500 status only on the publish-success path. -/
theorem DeregisterApplication_ok_implies_publish (ctx : Context) (cn : GoStr)
    (marshalOk publishOk : Bool) :
    (DeregisterApplication ctx cn marshalOk publishOk).w.status ≠
        some StatusInternalServerError →
      publishOk = true := by
  unfold DeregisterApplication
  cases hcn : CommonNameStringToURN cn with
  | error e =>
    intro h
    simp [hcn, writeHeader] at h
  | ok u =>
    cases marshalOk <;> cases publishOk <;> intro h <;>
      first
      | rfl
      | simp [hcn, writeHeader] at h

/-- C2: for register and deregister, a failed message-bus publish surfaces
the internal-error status with nothing handed to the bus; the local registry
state is never mutated by either handler (local state changes only via the
consume loop); and a success status is written only when the publish
succeeded. -/
theorem C2_publish_failure_internal_error (ctx : Context) (cn : GoStr) (s : Service)
    (u : URN) (body : Option Service) (marshalOk publishOk : Bool)
    (h : CommonNameStringToURN cn = .ok u) :
    (RegisterApplication ctx cn (some s) true false =
      ⟨{ status := some StatusInternalServerError }, [], ctx⟩) ∧
    (DeregisterApplication ctx cn true false =
      ⟨{ status := some StatusInternalServerError }, [], ctx⟩) ∧
    (RegisterApplication ctx cn body marshalOk publishOk).ctx = ctx ∧
    (DeregisterApplication ctx cn marshalOk publishOk).ctx = ctx ∧
    ((RegisterApplication ctx cn body marshalOk publishOk).w.status = some StatusOK →
      publishOk = true) ∧
    ((DeregisterApplication ctx cn marshalOk publishOk).w.status ≠
        some StatusInternalServerError → publishOk = true) :=
  ⟨RegisterApplication_publish_failed ctx cn s u h,
   DeregisterApplication_publish_failed ctx cn u h,
   RegisterApplication_ctx_unchanged ctx cn body marshalOk publishOk,
   DeregisterApplication_ctx_unchanged ctx cn marshalOk publishOk,
   RegisterApplication_ok_implies_publish ctx cn body marshalOk publishOk,
   DeregisterApplication_ok_implies_publish ctx cn marshalOk publishOk⟩

/-- Witness for C2 at a concrete input: common name `prod.svc1`, empty
registry, decoded body present, marshal succeeding, publish failing. -/
theorem C2_publish_failure_witness :
    (RegisterApplication ⟨some [], some []⟩ ("prod.svc1".toList) (some ({} : Service))
        true false =
      ⟨{ status := some StatusInternalServerError }, [], ⟨some [], some []⟩⟩) ∧
    (DeregisterApplication ⟨some [], some []⟩ ("prod.svc1".toList) true false =
      ⟨{ status := some StatusInternalServerError }, [], ⟨some [], some []⟩⟩) ∧
    (RegisterApplication ⟨some [], some []⟩ ("prod.svc1".toList) (some ({} : Service))
        true false).ctx = ⟨some [], some []⟩ ∧
    (DeregisterApplication ⟨some [], some []⟩ ("prod.svc1".toList) true false).ctx =
      ⟨some [], some []⟩ ∧
    ((RegisterApplication ⟨some [], some []⟩ ("prod.svc1".toList) (some ({} : Service))
        true false).w.status = some StatusOK → false = true) ∧
    ((DeregisterApplication ⟨some [], some []⟩ ("prod.svc1".toList) true false).w.status ≠
        some StatusInternalServerError → false = true) :=
  C2_publish_failure_internal_error ⟨some [], some []⟩ ("prod.svc1".toList) {}
    ⟨"prod".toList, "svc1".toList⟩ (some ({} : Service)) true false rfl

/-- C1: when the certificate common name parses to a URN and the marshal and
publish succeed, `DeregisterApplication` publishes the deregister
registry-change event regardless of whether the service is locally present,
and writes 204 when the service is locally present and 404 when absent. -/
theorem C1_deregister_always_publishes (ctx : Context) (cn : GoStr) (u : URN)
    (h : CommonNameStringToURN cn = .ok u) :
    (DeregisterApplication ctx cn true true).published =
      [{ key := URN.toString u,
         payload := { Svc := { URN := some u },
                      Action := ServiceAction.serviceActionDeregister } }] ∧
    (DeregisterApplication ctx cn true true).w.status =
      some (if isServicePresent cn ctx then StatusNoContent else StatusNotFound) := by
  unfold DeregisterApplication
  rw [h]
  cases hp : isServicePresent cn ctx <;> simp only [hp] <;> exact ⟨rfl, rfl⟩

/-- Witness for C1 at concrete inputs: deregistering `prod.svc1` against a
registry that contains it (status 204) and against an empty registry
(status 404); the event is published in both cases. -/
theorem C1_deregister_witness :
    (DeregisterApplication
        ⟨some [(("prod.svc1".toList : GoStr), ({} : Service))], some []⟩
        ("prod.svc1".toList) true true).published =
      [{ key := URN.toString ⟨"prod".toList, "svc1".toList⟩,
         payload := { Svc := { URN := some ⟨"prod".toList, "svc1".toList⟩ },
                      Action := ServiceAction.serviceActionDeregister } }] ∧
    (DeregisterApplication
        ⟨some [(("prod.svc1".toList : GoStr), ({} : Service))], some []⟩
        ("prod.svc1".toList) true true).w.status = some StatusNoContent ∧
    (DeregisterApplication ⟨some [], some []⟩ ("prod.svc1".toList) true true).published =
      [{ key := URN.toString ⟨"prod".toList, "svc1".toList⟩,
         payload := { Svc := { URN := some ⟨"prod".toList, "svc1".toList⟩ },
                      Action := ServiceAction.serviceActionDeregister } }] ∧
    (DeregisterApplication ⟨some [], some []⟩ ("prod.svc1".toList) true true).w.status =
      some StatusNotFound :=
  ⟨(C1_deregister_always_publishes
      ⟨some [(("prod.svc1".toList : GoStr), ({} : Service))], some []⟩
      ("prod.svc1".toList) ⟨"prod".toList, "svc1".toList⟩ rfl).1,
   (C1_deregister_always_publishes
      ⟨some [(("prod.svc1".toList : GoStr), ({} : Service))], some []⟩
      ("prod.svc1".toList) ⟨"prod".toList, "svc1".toList⟩ rfl).2,
   (C1_deregister_always_publishes ⟨some [], some []⟩
      ("prod.svc1".toList) ⟨"prod".toList, "svc1".toList⟩ rfl).1,
   (C1_deregister_always_publishes ⟨some [], some []⟩
      ("prod.svc1".toList) ⟨"prod".toList, "svc1".toList⟩ rfl).2⟩

/-- C10: the published deregister event carries a `Service` whose only
populated field is the URN derived from the caller's common name (all other
fields hold their Go zero values) and is keyed by the URN's canonical string
form, while the register event is keyed by the raw common name. -/
theorem C10_event_shape_and_keys (ctx : Context) (cn : GoStr) (u : URN) (s : Service)
    (h : CommonNameStringToURN cn = .ok u) :
    (DeregisterApplication ctx cn true true).published =
      [{ key := URN.toString u,
         payload := { Svc := { URN := some u, Description := [], EndpointURI := [],
                               Notifications := [] },
                      Action := ServiceAction.serviceActionDeregister } }] ∧
    (RegisterApplication ctx cn (some s) true true).published.map Message.key = [cn] := by
  constructor
  · unfold DeregisterApplication
    rw [h]
    rfl
  · unfold RegisterApplication
    rw [h]
    rfl

/-- Witness for C10 at a concrete input: common name `prod.svc1` and a
decoded body with a nonempty description; the deregister key is the URN
string and the register key is the raw common name. -/
theorem C10_event_shape_witness :
    (DeregisterApplication ⟨some [], some []⟩ ("prod.svc1".toList) true true).published =
      [{ key := URN.toString ⟨"prod".toList, "svc1".toList⟩,
         payload := { Svc := { URN := some ⟨"prod".toList, "svc1".toList⟩,
                               Description := [], EndpointURI := [], Notifications := [] },
                      Action := ServiceAction.serviceActionDeregister } }] ∧
    (RegisterApplication ⟨some [], some []⟩ ("prod.svc1".toList)
        (some { Description := ("hello".toList) }) true true).published.map Message.key =
      [("prod.svc1".toList : GoStr)] :=
  C10_event_shape_and_keys ⟨some [], some []⟩ ("prod.svc1".toList)
    ⟨"prod".toList, "svc1".toList⟩ { Description := ("hello".toList) } rfl

/-! ## Notification delivery and GET handler claims -/

/-- C3: a push-notification request matching zero consumers answers the "no
subscribers" status (205-equivalent), distinct from the 200 answered when at
least one consumer matched — even when every matched consumer's channel send
fails (`sendOk` is universally quantified, so in particular the constantly
failing one) — and that status is the one written to the caller. -/
theorem C3_push_zero_vs_some_subscribers (ctx : Context) (idx : SubscriptionIndex)
    (cn : GoStr) (u : URN) (notif : NotificationFromProducer) (sendOk : GoStr → Bool)
    (hsub : ctx.subscriptionInfo = some idx)
    (h : CommonNameStringToURN cn = .ok u) :
    (MatchSubscribers u notif.descriptor idx = [] →
      (PushNotificationToSubscribers ctx cn (some notif) sendOk).status =
        some StatusResetContent) ∧
    (MatchSubscribers u notif.descriptor idx ≠ [] →
      (PushNotificationToSubscribers ctx cn (some notif) sendOk).status = some StatusOK) ∧
    StatusResetContent ≠ StatusOK := by
  unfold PushNotificationToSubscribers sendNotificationToAllSubscribers
  rw [h, hsub]
  dsimp only
  refine ⟨?_, ?_, by decide⟩
  · intro hm
    rw [hm]
    rfl
  · intro hm
    cases hmm : MatchSubscribers u notif.descriptor idx with
    | nil => exact absurd hmm hm
    | cons c cs => rfl

/-- Witness for C3 at concrete inputs: producer `shop.catalog` pushing
`price-update` against an empty index (status 205) and against an index
where `shop.cart` holds the matching service-level descriptor while every
channel send fails (status 200). -/
theorem C3_push_witness :
    (PushNotificationToSubscribers ⟨some [], some []⟩ ("shop.catalog".toList)
        (some ⟨"price-update".toList, "1".toList, []⟩) (fun _ => false)).status =
      some StatusResetContent ∧
    (PushNotificationToSubscribers
        ⟨some [], some [(("shop.cart".toList : GoStr),
          Scope.serviceScope ("shop".toList) ("catalog".toList),
          (⟨"price-update".toList, "1".toList⟩ : NotificationDescriptor))]⟩
        ("shop.catalog".toList)
        (some ⟨"price-update".toList, "1".toList, []⟩) (fun _ => false)).status =
      some StatusOK :=
  ⟨(C3_push_zero_vs_some_subscribers ⟨some [], some []⟩ [] ("shop.catalog".toList)
      ⟨"shop".toList, "catalog".toList⟩ ⟨"price-update".toList, "1".toList, []⟩
      (fun _ => false) rfl rfl).1 rfl,
   (C3_push_zero_vs_some_subscribers
      ⟨some [], some [(("shop.cart".toList : GoStr),
        Scope.serviceScope ("shop".toList) ("catalog".toList),
        (⟨"price-update".toList, "1".toList⟩ : NotificationDescriptor))]⟩
      [(("shop.cart".toList : GoStr),
        Scope.serviceScope ("shop".toList) ("catalog".toList),
        (⟨"price-update".toList, "1".toList⟩ : NotificationDescriptor))]
      ("shop.catalog".toList) ⟨"shop".toList, "catalog".toList⟩
      ⟨"price-update".toList, "1".toList, []⟩ (fun _ => false) rfl rfl).2.1
     (by simp [MatchSubscribers, NotificationFromProducer.descriptor])⟩

/-- C8: `GetServices` writes the 200 status line before checking whether the
registry is initialized or whether encoding succeeds, so the client-visible
status is 200 for every request — the later internal-error write is a
superfluous no-op. -/
theorem C8_get_services_always_200 (ctx : Context) (encodeOk : Bool) :
    (GetServices ctx encodeOk).w.status = some StatusOK := by
  obtain ⟨si, sub⟩ := ctx
  cases si <;> cases encodeOk <;> rfl

/-- C7: counter-evidence — at the failing inputs (an initialized registry
with one service whose response encoding fails, and a subscription read-back
whose encoding fails) the 200 status line has already been sent, so the
caller does not receive the internal-error status the claim promises. -/
theorem C7_encoding_failure_status_stays_200 :
    (GetServices
        ⟨some [(("prod.svc1".toList : GoStr),
          ({ URN := some ⟨"prod".toList, "svc1".toList⟩ } : Service))], some []⟩
        false).w.status = some StatusOK ∧
    (GetSubscriptions ⟨some [], some []⟩ ("cons.one".toList) false).status =
      some StatusOK ∧
    StatusOK ≠ StatusInternalServerError :=
  ⟨rfl, rfl, by decide⟩

/-- C9: for every subscribe/unsubscribe handler (namespace- or
service-scoped), a request whose body fails JSON decoding yields exactly the
internal-error status and the untouched context, independently of the
Subscription Index state — the index is neither consulted nor mutated. -/
theorem C9_decode_failure_leaves_index (ctx : Context) (cn ns id : GoStr) :
    SubscribeNamespaceNotifications ctx cn ns none =
      ({ status := some StatusInternalServerError }, ctx) ∧
    SubscribeServiceNotifications ctx cn ns id none =
      ({ status := some StatusInternalServerError }, ctx) ∧
    UnsubscribeNamespaceNotifications ctx cn ns none =
      ({ status := some StatusInternalServerError }, ctx) ∧
    UnsubscribeServiceNotifications ctx cn ns id none =
      ({ status := some StatusInternalServerError }, ctx) :=
  ⟨rfl, rfl, rfl, rfl⟩

end EAA
